import Mathlib

/-!
# Verification of the libeval expression-compiler core (KiCad)

Shallow embedding of `src/include/libeval_compiler/libeval_compiler.h` and of
the expression pipeline it declares (tokenizer → parser → code generator →
stack VM).  Everything defined directly in the header (the `VALUE` equality
operator, the `CONTEXT` operand stack and scratch arena, `COMPILER::IsValid`)
is translated from that source.  The bodies of `COMPILER::Compile`,
`UCODE::Run`, `UOP::Exec` and `ReportError` live in `libeval_compiler.cpp`,
which is not part of this tree; those are modelled from the specification and
are marked `Modelled from the spec:` in their doc comments.

C++ `double` is modelled as `ℚ` (exact arithmetic; IEEE rounding and NaN are
outside the model), machine pointers as indices, and the C++ `assert` macro as
an explicit `Except.error` outcome.
-/

namespace LIBEVAL

/-- Embedding of `ERROR_STATUS::STAGE` from the header: the pipeline stage an error was
reported in. -/
inductive STAGE
  | CST_PARSE
  | CST_CODEGEN
  | CST_RUNTIME
deriving DecidableEq, Repr

/-- Embedding of `struct ERROR_STATUS` from the header: a pending-error flag, the stage,
a message and a source position. -/
structure ERROR_STATUS where
  pendingError : Bool := false
  stage : STAGE := .CST_PARSE
  message : String := ""
  srcPos : Int := 0
deriving DecidableEq, Repr

/-- Embedding of `enum VAR_TYPE_T` from the header. -/
inductive VAR_TYPE_T
  | VT_STRING
  | VT_NUMERIC
  | VT_UNDEFINED
deriving DecidableEq, Repr

/-- Embedding of `class VALUE` from the header: a type tag plus a double field and a string
field (both always present, as in the C++ object). -/
structure VALUE where
  m_type : VAR_TYPE_T := .VT_UNDEFINED
  m_valueDbl : ℚ := 0
  m_valueStr : String := ""
deriving DecidableEq, Repr

/-- Constructor `VALUE::VALUE(const double)` — numeric constructor. -/
def VALUE.ofDouble (aVal : ℚ) : VALUE :=
  { m_type := .VT_NUMERIC, m_valueDbl := aVal, m_valueStr := "" }

/-- Constructor `VALUE::VALUE(std::string)` — string constructor. -/
def VALUE.ofString (aStr : String) : VALUE :=
  { m_type := .VT_STRING, m_valueDbl := 0, m_valueStr := aStr }

/-- Embedding of `VALUE::operator==` from the header: numeric with numeric compares the
doubles, string with string compares the texts, anything else is `false`. -/
def VALUE.beq (a b : VALUE) : Bool :=
  if a.m_type = .VT_NUMERIC ∧ b.m_type = .VT_NUMERIC then
    a.m_valueDbl == b.m_valueDbl
  else if a.m_type = .VT_STRING ∧ b.m_type = .VT_STRING then
    a.m_valueStr == b.m_valueStr
  else
    false

/-- Embedding of `COMPILER::IsValid` from the header: true iff no error is pending. -/
def COMPILER_IsValid (st : ERROR_STATUS) : Bool :=
  !st.pendingError

/-- Embedding of `class CONTEXT` from the header.  `m_stack` is a 128-entry array of
`VALUE*`; we model the surrounding memory as a map from `Int` indices to
optional pointers so that unchecked accesses outside `[0, 128)` are
expressible (index `128` is one past the array, `-1` one before it).
Pointers are heap indices (`Nat`).  `m_heap` is the scratch arena,
pre-filled with 128 default-constructed `VALUE`s by the constructor;
`m_sp` and `m_memPos` are C++ `int`s, modelled as `Int`. -/
structure CONTEXT where
  m_heap : Nat → VALUE := fun _ => {}
  m_stack : Int → Option Nat := fun _ => none
  m_sp : Int := 0
  m_memPos : Int := 0
  m_errorStatus : ERROR_STATUS := {}

/-- Embedding of `CONTEXT::c_memSize` from the header. -/
def c_memSize : Int := 128

/-- A freshly constructed `CONTEXT` (stack pointer 0, allocation pointer 0,
arena filled with default `VALUE`s). -/
def CONTEXT.fresh : CONTEXT := {}

/-- Embedding of `CONTEXT::AllocValue` from the header:
`assert( m_memPos < c_memSize ); auto rv = &m_heap[ m_memPos++ ];` —
the assert is modelled as an `Except.error`. -/
def CONTEXT.AllocValue (c : CONTEXT) : Except String (Nat × CONTEXT) :=
  if c.m_memPos < c_memSize then
    .ok (c.m_memPos.toNat, { c with m_memPos := c.m_memPos + 1 })
  else
    .error "assert failed: m_memPos < c_memSize"

/-- Embedding of `CONTEXT::Push` from the header: `m_stack[m_sp++] = v;` — note there is
no bounds check of any kind in the source, so the write lands at index
`m_sp` whatever that is. -/
def CONTEXT.Push (c : CONTEXT) (v : Nat) : CONTEXT :=
  { c with
    m_stack := fun i => if i = c.m_sp then some v else c.m_stack i,
    m_sp := c.m_sp + 1 }

/-- Embedding of `CONTEXT::Pop` from the header: `m_sp--; return m_stack[m_sp];` — again
no bounds check; at `m_sp = 0` this reads index `-1`. -/
def CONTEXT.Pop (c : CONTEXT) : Option Nat × CONTEXT :=
  (c.m_stack (c.m_sp - 1), { c with m_sp := c.m_sp - 1 })

/-- Embedding of `CONTEXT::SP` from the header. -/
def CONTEXT.SP (c : CONTEXT) : Int :=
  c.m_sp

/-- Iterated `AllocValue`: perform `n` allocations, collecting the returned
pointers in order.  Used to state the arena-exhaustion claims. -/
def CONTEXT.allocN : Nat → CONTEXT → Except String (List Nat × CONTEXT)
  | 0, c => .ok ([], c)
  | n + 1, c =>
    match c.AllocValue with
    | .error e => .error e
    | .ok (p, c1) =>
      match CONTEXT.allocN n c1 with
      | .error e => .error e
      | .ok (ps, c2) => .ok (p :: ps, c2)

/-- Modelled from the spec: `ReportError` (bodies in `libeval_compiler.cpp`,
absent from this tree).  "Only the first error in a given stage is retained;
subsequent errors in the same pass are suppressed once the flag is set." -/
def ERROR_STATUS.report (st : ERROR_STATUS) (aStage : STAGE) (aMsg : String)
    (aPos : Int) : ERROR_STATUS :=
  if st.pendingError then st
  else { pendingError := true, stage := aStage, message := aMsg, srcPos := aPos }

/-- The binary operators of the expression language, as in the `TR_OP_*`
opcode defines of the header. -/
inductive BOP
  | MUL | DIV | ADD | SUB | LESS | GREATER | LESS_EQUAL | GREATER_EQUAL
  | EQUAL | NOT_EQUAL | BOOL_AND | BOOL_OR
deriving DecidableEq, Repr

/-- The numeric opcode each operator carries in the emitted bytecode, from
the `TR_OP_*` defines of the header (lines 34-45). -/
def BOP.trOpcode : BOP → Nat
  | .MUL => 0x201
  | .DIV => 0x202
  | .ADD => 0x203
  | .SUB => 0x204
  | .LESS => 0x25
  | .GREATER => 0x206
  | .LESS_EQUAL => 0x207
  | .GREATER_EQUAL => 0x208
  | .EQUAL => 0x209
  | .NOT_EQUAL => 0x20a
  | .BOOL_AND => 0x20b
  | .BOOL_OR => 0x20c

/-- Modelled from the spec: the AST built by the lemon-generated grammar
(`grammar.lemon` / `TREE_NODE` trees, producers absent from this tree).
Terminals hold numeric or string literals or variable / struct-field
references; interior nodes hold unary negation or a binary operator. -/
inductive Expr
  | num (q : ℚ)
  | strLit (s : String)
  | varRef (name field : String)
  | unNot (a : Expr)
  | bin (op : BOP) (a b : Expr)
deriving DecidableEq, Repr

/-- Modelled from the spec: the token kinds the lexer feeds to the grammar. -/
inductive TOKB
  | numTok (q : ℚ)
  | identTok (s : String)
  | structTok (name field : String)
  | opTok (b : BOP)
  | bangTok
  | lparenTok
  | rparenTok
  | assignTok
deriving DecidableEq, Repr

/-- Value of a run of decimal digit characters. -/
def natOfDigits (ds : List Char) : Nat :=
  ds.foldl (fun acc c => 10 * acc + (c.toNat - 48)) 0

/-- Modelled from the spec: the lexer (`lexDefault` in the missing
`libeval_compiler.cpp`).  Skips whitespace; scans numeric literals (digits
with an optional fractional part), identifiers and `identifier.field`
struct references, and the fixed operator lexemes
`+ - * / < > <= >= == != && || ! = ( )`.  Unit suffixes, locale decimal
separators and quoted strings are outside the fragment the claims exercise.
`fuel` bounds recursion; each step consumes at least one character. -/
def tokenizeAux : Nat → List Char → Except String (List TOKB)
  | 0, _ => .error "tokenizer: out of fuel"
  | _ + 1, [] => .ok []
  | fuel + 1, c :: cs =>
    if c = ' ' ∨ c = '\t' then
      tokenizeAux fuel cs
    else if c.isDigit then
      let (ds, rest) := List.span Char.isDigit (c :: cs)
      match rest with
      | '.' :: r2 =>
        let (fs, rest2) := List.span Char.isDigit r2
        if fs.isEmpty then .error "tokenizer: malformed number"
        else
          (tokenizeAux fuel rest2).map
            (TOKB.numTok ((natOfDigits ds : ℚ) +
              (natOfDigits fs : ℚ) / (10 : ℚ) ^ fs.length) :: ·)
      | _ =>
        (tokenizeAux fuel rest).map (TOKB.numTok (natOfDigits ds : ℚ) :: ·)
    else if c.isAlpha then
      let (as_, rest) := List.span Char.isAlphanum (c :: cs)
      match rest with
      | '.' :: d :: r2 =>
        if d.isAlpha then
          let (fs, rest2) := List.span Char.isAlphanum (d :: r2)
          (tokenizeAux fuel rest2).map
            (TOKB.structTok (String.mk as_) (String.mk fs) :: ·)
        else .error "tokenizer: malformed struct reference"
      | _ =>
        (tokenizeAux fuel rest).map (TOKB.identTok (String.mk as_) :: ·)
    else if c = '&' then
      match cs with
      | '&' :: r => (tokenizeAux fuel r).map (TOKB.opTok .BOOL_AND :: ·)
      | _ => .error "tokenizer: unexpected character"
    else if c = '|' then
      match cs with
      | '|' :: r => (tokenizeAux fuel r).map (TOKB.opTok .BOOL_OR :: ·)
      | _ => .error "tokenizer: unexpected character"
    else if c = '<' then
      match cs with
      | '=' :: r => (tokenizeAux fuel r).map (TOKB.opTok .LESS_EQUAL :: ·)
      | _ => (tokenizeAux fuel cs).map (TOKB.opTok .LESS :: ·)
    else if c = '>' then
      match cs with
      | '=' :: r => (tokenizeAux fuel r).map (TOKB.opTok .GREATER_EQUAL :: ·)
      | _ => (tokenizeAux fuel cs).map (TOKB.opTok .GREATER :: ·)
    else if c = '=' then
      match cs with
      | '=' :: r => (tokenizeAux fuel r).map (TOKB.opTok .EQUAL :: ·)
      | _ => (tokenizeAux fuel cs).map (TOKB.assignTok :: ·)
    else if c = '!' then
      match cs with
      | '=' :: r => (tokenizeAux fuel r).map (TOKB.opTok .NOT_EQUAL :: ·)
      | _ => (tokenizeAux fuel cs).map (TOKB.bangTok :: ·)
    else if c = '+' then (tokenizeAux fuel cs).map (TOKB.opTok .ADD :: ·)
    else if c = '-' then (tokenizeAux fuel cs).map (TOKB.opTok .SUB :: ·)
    else if c = '*' then (tokenizeAux fuel cs).map (TOKB.opTok .MUL :: ·)
    else if c = '/' then (tokenizeAux fuel cs).map (TOKB.opTok .DIV :: ·)
    else if c = '(' then (tokenizeAux fuel cs).map (TOKB.lparenTok :: ·)
    else if c = ')' then (tokenizeAux fuel cs).map (TOKB.rparenTok :: ·)
    else .error "tokenizer: unexpected character"

/-- The binary operators admitted at each precedence level, loosest first:
logical-or < logical-and < equality < relational < additive <
multiplicative (spec §4.3). -/
def opsAtLevel : Nat → List BOP
  | 0 => [.BOOL_OR]
  | 1 => [.BOOL_AND]
  | 2 => [.EQUAL, .NOT_EQUAL]
  | 3 => [.LESS, .GREATER, .LESS_EQUAL, .GREATER_EQUAL]
  | 4 => [.ADD, .SUB]
  | _ => [.MUL, .DIV]

/-- Left-associative operator loop of the precedence parser: as long as the
next token is an operator of the current level, parse one more operand with
`pnext` and fold it into the accumulator from the left. -/
def parseLoopF (pnext : List TOKB → Except String (Expr × List TOKB)) :
    Nat → Nat → Expr → List TOKB → Except String (Expr × List TOKB)
  | 0, _, _, _ => .error "syntax error: out of fuel"
  | fuel + 1, lvl, acc, toks =>
    match toks with
    | .opTok b :: rest =>
      if (opsAtLevel lvl).contains b then do
        let (e2, r2) ← pnext rest
        parseLoopF pnext fuel lvl (.bin b acc e2) r2
      else .ok (acc, toks)
    | _ => .ok (acc, toks)

/-- Modelled from the spec: the grammar (lemon parser, absent from this
tree) as a precedence-climbing parser.  Level 6 parses a primary expression
(literal, identifier or struct reference, `!`-negation, parenthesised
sub-expression); levels 0-5 parse left-associative binary operator chains,
loosest precedence first (spec §4.3). -/
def parseP : Nat → Nat → List TOKB → Except String (Expr × List TOKB)
  | 0, _, _ => .error "syntax error: out of fuel"
  | fuel + 1, lvl, toks =>
    if 6 ≤ lvl then
      match toks with
      | .numTok q :: rest => .ok (.num q, rest)
      | .identTok s :: rest => .ok (.varRef s "", rest)
      | .structTok s f :: rest => .ok (.varRef s f, rest)
      | .bangTok :: rest => do
        let (e, r) ← parseP fuel 6 rest
        .ok (.unNot e, r)
      | .lparenTok :: rest => do
        let (e, r) ← parseP fuel 0 rest
        match r with
        | .rparenTok :: r2 => .ok (e, r2)
        | _ => .error "syntax error: expected closing parenthesis"
      | _ => .error "syntax error: unexpected token"
    else do
      let (e, r) ← parseP fuel (lvl + 1) toks
      parseLoopF (parseP fuel (lvl + 1)) fuel lvl e r

/-- Parse a full token list into one expression; trailing tokens are a
parse error. -/
def parseToks (toks : List TOKB) : Except String Expr := do
  let (e, rest) ← parseP (8 * (toks.length + 1)) 0 toks
  if rest.isEmpty then .ok e else .error "syntax error: trailing tokens"

/-- Modelled from the spec: lexing plus parsing of a source string into one
AST, or a parse error. -/
def parseString (s : String) : Except String Expr := do
  let toks ← tokenizeAux (s.toList.length + 1) s.toList
  parseToks toks

/-- Modelled from the spec: the bytecode operations (`UOP`).  A push of an
owned constant `VALUE`, a push of the value delivered by a host-bound
variable reference (resolved at code-generation time), a binary operator, or
boolean negation.  Host function calls are outside the fragment the claims
exercise. -/
inductive UOPM
  | pushValue (v : VALUE)
  | pushVar (v : VALUE)
  | binop (b : BOP)
  | unopNot
deriving DecidableEq, Repr

/-- The default variable resolver of the header
(`UCODE::createVarRef` returns `nullptr`): every lookup fails. -/
def resolveDefault : String → String → Option VALUE :=
  fun _ _ => none

/-- Modelled from the spec: the code generator (`generateUCode`, absent from
this tree).  Post-order walk: literals become push-constant operations,
identifier / struct references are resolved through the host binding
interface (failure is a codegen error), operators emit both operand
subtrees unconditionally followed by the operator opcode. -/
def codegen (resolve : String → String → Option VALUE) :
    Expr → Except String (List UOPM)
  | .num q => .ok [.pushValue (.ofDouble q)]
  | .strLit s => .ok [.pushValue (.ofString s)]
  | .varRef n f =>
    match resolve n f with
    | some v => .ok [.pushVar v]
    | none => .error ("unresolved identifier: " ++ n)
  | .unNot a => do
    let pa ← codegen resolve a
    .ok (pa ++ [.unopNot])
  | .bin b a c => do
    let pa ← codegen resolve a
    let pc ← codegen resolve c
    .ok (pa ++ pc ++ [.binop b])

/-- A runtime outcome other than a value: a reportable runtime error, or a
fatal stack-discipline fault (a code-generation defect, spec §4.5). -/
inductive RT
  | rtError (msg : String)
  | fault
deriving DecidableEq, Repr

/-- Modelled from the spec: boolean coercion for the logical operators —
"nonzero numeric or nonempty string" (spec §4.5). -/
def asBool (v : VALUE) : Bool :=
  match v.m_type with
  | .VT_NUMERIC => v.m_valueDbl != 0
  | .VT_STRING => v.m_valueStr != ""
  | .VT_UNDEFINED => false

/-- The numeric 0/1 boolean result of relational and logical operators. -/
def boolVal (b : Bool) : VALUE :=
  .ofDouble (if b then 1 else 0)

/-- Ordering comparisons: numeric operands compare numerically, string
ordering is a runtime error (spec §4.5), as is a mixed comparison. -/
def applyOrder (x y : VALUE) (cmp : ℚ → ℚ → Bool) : Except RT VALUE :=
  if x.m_type = .VT_NUMERIC ∧ y.m_type = .VT_NUMERIC then
    .ok (boolVal (cmp x.m_valueDbl y.m_valueDbl))
  else if x.m_type = .VT_STRING ∧ y.m_type = .VT_STRING then
    .error (.rtError "string ordering comparison is not supported")
  else .error (.rtError "comparison operand type mismatch")

/-- Modelled from the spec: the binary operator semantics of the VM
(spec §4.5).  `x` is the left operand (pushed first), `y` the right.
Arithmetic requires two numeric operands and division by a numeric zero is
a runtime error; equality reuses `VALUE.beq` from the header; the logical
operators coerce both operands with `asBool`. -/
def applyBop (b : BOP) (x y : VALUE) : Except RT VALUE :=
  match b with
  | .ADD =>
    if x.m_type = .VT_NUMERIC ∧ y.m_type = .VT_NUMERIC then
      .ok (.ofDouble (x.m_valueDbl + y.m_valueDbl))
    else .error (.rtError "arithmetic operand is not numeric")
  | .SUB =>
    if x.m_type = .VT_NUMERIC ∧ y.m_type = .VT_NUMERIC then
      .ok (.ofDouble (x.m_valueDbl - y.m_valueDbl))
    else .error (.rtError "arithmetic operand is not numeric")
  | .MUL =>
    if x.m_type = .VT_NUMERIC ∧ y.m_type = .VT_NUMERIC then
      .ok (.ofDouble (x.m_valueDbl * y.m_valueDbl))
    else .error (.rtError "arithmetic operand is not numeric")
  | .DIV =>
    if x.m_type = .VT_NUMERIC ∧ y.m_type = .VT_NUMERIC then
      if y.m_valueDbl = 0 then .error (.rtError "division by zero")
      else .ok (.ofDouble (x.m_valueDbl / y.m_valueDbl))
    else .error (.rtError "arithmetic operand is not numeric")
  | .LESS => applyOrder x y (fun a b => decide (a < b))
  | .GREATER => applyOrder x y (fun a b => decide (b < a))
  | .LESS_EQUAL => applyOrder x y (fun a b => decide (a ≤ b))
  | .GREATER_EQUAL => applyOrder x y (fun a b => decide (b ≤ a))
  | .EQUAL => .ok (boolVal (VALUE.beq x y))
  | .NOT_EQUAL => .ok (boolVal (!VALUE.beq x y))
  | .BOOL_AND => .ok (boolVal (asBool x && asBool y))
  | .BOOL_OR => .ok (boolVal (asBool x || asBool y))

/-- Modelled from the spec: `UOP::Exec` — one instruction against the
operand stack.  Binary operators pop the right operand then the left;
popping an empty stack is a fatal fault (stack underflow, spec §4.5). -/
def execUop : UOPM → List VALUE → Except RT (List VALUE)
  | .pushValue v, st => .ok (v :: st)
  | .pushVar v, st => .ok (v :: st)
  | .binop b, y :: x :: st =>
    match applyBop b x y with
    | .error e => .error e
    | .ok r => .ok (r :: st)
  | .binop _, _ => .error .fault
  | .unopNot, x :: st => .ok (boolVal (!asBool x) :: st)
  | .unopNot, [] => .error .fault

/-- Modelled from the spec: straight-line execution of a whole program —
every instruction is executed exactly once, in order (the instruction set
has no jumps). -/
def execOps : List UOPM → List VALUE → Except RT (List VALUE)
  | [], st => .ok st
  | u :: rest, st =>
    match execUop u st with
    | .error e => .error e
    | .ok st2 => execOps rest st2

/-- Result of a `Run`: a value, a runtime error delivered through the
normal `ERROR_STATUS` channel, or a fatal stack-discipline fault. -/
inductive RUN_RES
  | val (v : VALUE)
  | rerr (e : ERROR_STATUS)
  | fault
deriving DecidableEq, Repr

/-- The `ERROR_STATUS` recorded for a runtime error (stage `CST_RUNTIME`). -/
def runtimeStatus (msg : String) : ERROR_STATUS :=
  ERROR_STATUS.report {} .CST_RUNTIME msg (-1)

/-- Modelled from the spec: `UCODE::Run` against an explicit operand stack
(a fresh execution context starts with the empty stack).  Executes every
instruction, then returns the value on top of the stack; an empty final
stack is a fault. -/
def RunWith (p : List UOPM) (stack : List VALUE) : RUN_RES :=
  match execOps p stack with
  | .ok (v :: _) => .val v
  | .ok [] => .fault
  | .error (.rtError m) => .rerr (runtimeStatus m)
  | .error .fault => .fault

/-- Shorthand `Run` against a fresh execution context. -/
def Run (p : List UOPM) : RUN_RES :=
  RunWith p []

/-- Outcome of `COMPILER::Compile`: the boolean return value, the program
left in the target `UCODE`, and the compiler error status. -/
structure COMPILE_RES where
  success : Bool
  code : List UOPM
  err : ERROR_STATUS
deriving DecidableEq, Repr

/-- Modelled from the spec: `COMPILER::Compile(text, program)` (body in the
missing `libeval_compiler.cpp`).  Clears any prior program content of the
target, then parses and generates code with the default (header) resolver;
parse failures are recorded at stage `CST_PARSE`, code-generation failures
at stage `CST_CODEGEN`, and a failed compile leaves the cleared (empty)
program.  `aCode` is the prior content of the target program. -/
def Compile (aString : String) (aCode : List UOPM) : COMPILE_RES :=
  let cleared := aCode.take 0
  match parseString aString with
  | .error m => { success := false, code := cleared,
                  err := ERROR_STATUS.report {} .CST_PARSE m (-1) }
  | .ok e =>
    match codegen resolveDefault e with
    | .error m => { success := false, code := cleared,
                    err := ERROR_STATUS.report {} .CST_CODEGEN m (-1) }
    | .ok p => { success := true, code := cleared ++ p, err := {} }

/-- End-to-end evaluation of a source string: compile (against an empty
prior program) and run; a failed compile surfaces its error status. -/
def evalString (s : String) : RUN_RES :=
  let r := Compile s []
  if r.success then Run r.code else .rerr r.err

/-- Reference meaning of one binary operator on numeric operands, under the
standard mathematical reading: exact arithmetic, `none` on division by
zero, 0/1 results for relational and logical operators, logical operands
true iff nonzero. -/
def evalBop (b : BOP) (x y : ℚ) : Option ℚ :=
  match b with
  | .ADD => some (x + y)
  | .SUB => some (x - y)
  | .MUL => some (x * y)
  | .DIV => if y = 0 then none else some (x / y)
  | .LESS => some (if x < y then 1 else 0)
  | .GREATER => some (if y < x then 1 else 0)
  | .LESS_EQUAL => some (if x ≤ y then 1 else 0)
  | .GREATER_EQUAL => some (if y ≤ x then 1 else 0)
  | .EQUAL => some (if x = y then 1 else 0)
  | .NOT_EQUAL => some (if x = y then 0 else 1)
  | .BOOL_AND => some (if x ≠ 0 ∧ y ≠ 0 then 1 else 0)
  | .BOOL_OR => some (if x ≠ 0 ∨ y ≠ 0 then 1 else 0)

/-- Reference evaluator for numeric expressions: the mathematical value of
an expression under the standard reading of the operators, with `none` on
division by zero and on non-numeric leaves. -/
def evalE : Expr → Option ℚ
  | .num q => some q
  | .strLit _ => none
  | .varRef _ _ => none
  | .unNot a =>
    match evalE a with
    | none => none
    | some x => some (if x = 0 then 1 else 0)
  | .bin b a c =>
    match evalE a, evalE c with
    | some x, some y => evalBop b x y
    | _, _ => none

/-! ## Helper lemmas shared across claims -/

/-- Sequencing: executing a concatenation executes the first program in
full, then the second — no instruction is skipped. -/
theorem execOps_append (p q : List UOPM) (st : List VALUE) :
    execOps (p ++ q) st = (execOps p st).bind (execOps q) := by
  induction p generalizing st with
  | nil => rfl
  | cons u rest ih =>
    show execOps (u :: (rest ++ q)) st = _
    unfold execOps
    cases execUop u st with
    | error e => rfl
    | ok st2 => exact ih st2

/-- A context with a full operand stack (stack pointer at the array
capacity). -/
def fullStackCtx : CONTEXT :=
  { m_sp := 128, m_memPos := 128 }

/-- A pending error status used to exercise error-suppression. -/
def pendingStatus : ERROR_STATUS :=
  { pendingError := true, stage := .CST_PARSE, message := "first", srcPos := 3 }

end LIBEVAL

namespace LIBEVAL

/-! ## Claims -/

/-- C2: `VALUE::operator==` is type-aware — it returns true iff both values
are numeric with equal doubles or both are strings with equal texts; every
cross-type comparison is false, and an `Undefined` value is unequal even to
itself. -/
theorem C2_value_equality :
    (∀ a b : VALUE, VALUE.beq a b = true ↔
      (a.m_type = .VT_NUMERIC ∧ b.m_type = .VT_NUMERIC ∧
        a.m_valueDbl = b.m_valueDbl) ∨
      (a.m_type = .VT_STRING ∧ b.m_type = .VT_STRING ∧
        a.m_valueStr = b.m_valueStr)) ∧
    (∀ a b : VALUE, a.m_type ≠ b.m_type → VALUE.beq a b = false) ∧
    (∀ a : VALUE, a.m_type = .VT_UNDEFINED → VALUE.beq a a = false) := by
  refine ⟨fun a b => ?_, fun a b hne => ?_, fun a hu => ?_⟩
  · obtain ⟨ta, da, sa⟩ := a
    obtain ⟨tb, db, sb⟩ := b
    cases ta <;> cases tb <;> simp [VALUE.beq]
  · obtain ⟨ta, da, sa⟩ := a
    obtain ⟨tb, db, sb⟩ := b
    cases ta <;> cases tb <;> simp_all [VALUE.beq]
  · obtain ⟨ta, da, sa⟩ := a
    cases ta <;> simp_all [VALUE.beq]

/-- C2 witness: two default-constructed (`Undefined`) `VALUE`s compare
unequal. -/
theorem C2_value_equality_witness :
    ({} : VALUE).m_type = .VT_UNDEFINED ∧ VALUE.beq {} {} = false :=
  ⟨rfl, C2_value_equality.2.2 {} rfl⟩

/-- C5: once the pending-error flag is set, a subsequent error report
leaves the recorded stage, message and source position unchanged (the
whole status record is returned untouched), and `COMPILER::IsValid` is
true exactly when no error is pending. -/
theorem C5_first_error_retained :
    (∀ (st : ERROR_STATUS) (s : STAGE) (m : String) (p : Int),
      st.pendingError = true → ERROR_STATUS.report st s m p = st) ∧
    (∀ st : ERROR_STATUS, COMPILER_IsValid st = true ↔
      st.pendingError = false) := by
  constructor
  · intro st s m p h
    simp [ERROR_STATUS.report, h]
  · intro st
    simp [COMPILER_IsValid]

/-- C5 witness: reporting a second (runtime-stage) error over an already
pending parse-stage error changes nothing. -/
theorem C5_first_error_retained_witness :
    pendingStatus.pendingError = true ∧
    ERROR_STATUS.report pendingStatus .CST_RUNTIME "second" 9 = pendingStatus :=
  ⟨rfl, C5_first_error_retained.1 pendingStatus .CST_RUNTIME "second" 9 rfl⟩

/-- C6 counterexample: the header's `CONTEXT::Push` and `CONTEXT::Pop` have
no bounds check at all (only `AllocValue` carries an `assert`).  Pushing
onto a context whose stack pointer is already 128 writes the pointer at
index 128 — one past the end of the 128-entry `m_stack` array — leaves the
error status untouched and bumps the stack pointer to 129; popping an empty
stack moves the stack pointer to −1 and reads index −1.  Nothing is caught. -/
theorem C6_counterexample :
    (fullStackCtx.Push 7).m_stack 128 = some 7 ∧
    ¬ (128 : Int) < c_memSize ∧
    (fullStackCtx.Push 7).m_sp = 129 ∧
    (fullStackCtx.Push 7).m_errorStatus.pendingError = false ∧
    (CONTEXT.fresh.Pop).2.m_sp = -1 ∧
    (CONTEXT.fresh.Pop).1 = CONTEXT.fresh.m_stack (-1) := by
  refine ⟨?_, by decide, rfl, rfl, rfl, rfl⟩
  simp [fullStackCtx, CONTEXT.Push]

/-- C6 (amended): the operand stack capacity is bounded at 128 entries and
the scratch arena's exhaustion is caught by the `assert` in `AllocValue`,
but `Push` and `Pop` themselves are unchecked: pushing with the stack full
silently writes outside the 128-entry stack array (at index 128) without
touching the error status, and popping with the stack empty silently reads
outside it (at index −1). -/
theorem C6_amended_unchecked_stack (c ce : CONTEXT) (v : Nat)
    (hFull : c.m_sp = 128) (hArena : ¬ c.m_memPos < c_memSize)
    (hEmpty : ce.m_sp = 0) :
    c.AllocValue = .error "assert failed: m_memPos < c_memSize" ∧
    (c.Push v).m_stack 128 = some v ∧
    (c.Push v).m_sp = 129 ∧
    (c.Push v).m_errorStatus = c.m_errorStatus ∧
    (ce.Pop).2.m_sp = -1 ∧
    (ce.Pop).1 = ce.m_stack (-1) := by
  refine ⟨?_, ?_, ?_, rfl, ?_, ?_⟩
  · simp [CONTEXT.AllocValue, hArena]
  · simp [CONTEXT.Push, hFull]
  · simp [CONTEXT.Push, hFull]
  · simp [CONTEXT.Pop, hEmpty]
  · simp [CONTEXT.Pop, hEmpty]

/-- C6 amended witness: instantiated at a full context and a fresh (empty)
context. -/
theorem C6_amended_unchecked_stack_witness :
    fullStackCtx.m_sp = 128 ∧ ¬ fullStackCtx.m_memPos < c_memSize ∧
    CONTEXT.fresh.m_sp = 0 ∧
    fullStackCtx.AllocValue = .error "assert failed: m_memPos < c_memSize" ∧
    (fullStackCtx.Push 7).m_stack 128 = some 7 := by
  refine ⟨rfl, by decide, rfl, ?_, ?_⟩
  · exact (C6_amended_unchecked_stack fullStackCtx CONTEXT.fresh 7 rfl
      (by decide) rfl).1
  · exact (C6_amended_unchecked_stack fullStackCtx CONTEXT.fresh 7 rfl
      (by decide) rfl).2.1

/-- Iterating `AllocValue` in bulk: starting from allocation pointer `m`, `n` further
allocations all succeed as long as `m + n ≤ 128`, return the consecutive
arena indices `m, m+1, …, m+n−1`, and leave the allocation pointer at
`m + n`. -/
theorem allocN_ok (n : Nat) (c : CONTEXT) (h0 : 0 ≤ c.m_memPos)
    (h : c.m_memPos + n ≤ 128) :
    CONTEXT.allocN n c =
      .ok ((List.range n).map (fun i => c.m_memPos.toNat + i),
           { c with m_memPos := c.m_memPos + n }) := by
  induction n generalizing c with
  | zero => simp [CONTEXT.allocN]
  | succ n ih =>
    have hlt : c.m_memPos < c_memSize := by
      simp only [c_memSize]
      omega
    have hstep : c.AllocValue =
        .ok (c.m_memPos.toNat, { c with m_memPos := c.m_memPos + 1 }) := by
      simp [CONTEXT.AllocValue, hlt]
    have h0s : 0 ≤ c.m_memPos + 1 := by omega
    have hs : c.m_memPos + 1 + n ≤ 128 := by omega
    have ihs := ih { c with m_memPos := c.m_memPos + 1 } h0s hs
    simp only [CONTEXT.allocN, hstep, ihs]
    refine congrArg Except.ok ?_
    refine Prod.ext ?_ ?_
    · show c.m_memPos.toNat :: (List.range n).map (fun i => (c.m_memPos + 1).toNat + i) =
        (List.range (n + 1)).map (fun i => c.m_memPos.toNat + i)
      rw [List.range_succ_eq_map, List.map_cons, List.map_map]
      refine congrArg₂ List.cons (by omega) ?_
      refine List.map_congr_left fun i _ => ?_
      simp only [Function.comp]
      omega
    · show ({ c with m_memPos := c.m_memPos + 1 + n } : CONTEXT) =
        { c with m_memPos := c.m_memPos + ↑(n + 1) }
      have : c.m_memPos + 1 + (n : Int) = c.m_memPos + ((n : Int) + 1) := by ring
      simp [this]

/-- C7: the context pre-allocates a 128-slot scratch arena
(`c_memSize = 128`); from a fresh context, any `n ≤ 128` successive
`AllocValue` calls all succeed (the guarding assertion never fires),
return the pairwise distinct slots `0, …, n−1`, and advance the
allocation pointer to `n`. -/
theorem C7_scratch_arena (n : Nat) (hn : n ≤ 128) :
    c_memSize = 128 ∧
    ∃ c2 : CONTEXT,
      CONTEXT.allocN n CONTEXT.fresh = .ok (List.range n, c2) ∧
      c2.m_memPos = n ∧ (List.range n).Nodup := by
  refine ⟨rfl, { CONTEXT.fresh with m_memPos := n }, ?_, rfl, List.nodup_range n⟩
  have h := allocN_ok n CONTEXT.fresh (by decide)
    (by simp only [CONTEXT.fresh]; omega)
  simpa [CONTEXT.fresh] using h

/-- C7 witness: all 128 allocations of a full arena succeed. -/
theorem C7_scratch_arena_witness :
    (128 : Nat) ≤ 128 ∧
    (c_memSize = 128 ∧
      ∃ c2 : CONTEXT,
        CONTEXT.allocN 128 CONTEXT.fresh = .ok (List.range 128, c2) ∧
        c2.m_memPos = 128 ∧ (List.range 128).Nodup) :=
  ⟨le_refl 128, C7_scratch_arena 128 (le_refl 128)⟩

/-- C10: for any context with stack pointer in `[0, 128)`, `Push v`
followed by `Pop` returns exactly the pointer `v` and restores the stack
pointer to its pre-push value (the operand stack is LIFO). -/
theorem C10_push_pop_lifo (c : CONTEXT) (v : Nat)
    (h0 : 0 ≤ c.m_sp) (h1 : c.m_sp < 128) :
    ((c.Push v).Pop).1 = some v ∧ ((c.Push v).Pop).2.m_sp = c.m_sp := by
  constructor
  · simp [CONTEXT.Push, CONTEXT.Pop]
  · simp [CONTEXT.Push, CONTEXT.Pop]

/-- C10 witness: instantiated at a fresh context and pointer 5. -/
theorem C10_push_pop_lifo_witness :
    (0 : Int) ≤ CONTEXT.fresh.m_sp ∧ CONTEXT.fresh.m_sp < 128 ∧
    ((CONTEXT.fresh.Push 5).Pop).1 = some 5 ∧
    ((CONTEXT.fresh.Push 5).Pop).2.m_sp = CONTEXT.fresh.m_sp :=
  ⟨by decide, by decide,
    (C10_push_pop_lifo CONTEXT.fresh 5 (by decide) (by decide)).1,
    (C10_push_pop_lifo CONTEXT.fresh 5 (by decide) (by decide)).2⟩

/-- One execution step of a binary operator whose `applyBop` succeeds. -/
theorem execOps_binop_ok (b : BOP) (x y r : VALUE) (rest : List UOPM)
    (st : List VALUE) (h : applyBop b x y = .ok r) :
    execOps (UOPM.binop b :: rest) (y :: x :: st) = execOps rest (r :: st) := by
  simp [execOps, execUop, h]

/-- One execution step of a binary operator whose `applyBop` fails: the
error propagates past any remaining instructions. -/
theorem execOps_binop_error (b : BOP) (x y : VALUE) (e : RT)
    (rest : List UOPM) (st : List VALUE) (h : applyBop b x y = .error e) :
    execOps (UOPM.binop b :: rest) (y :: x :: st) = .error e := by
  simp [execOps, execUop, h]

/-- The VM's binary operator agrees with the reference meaning on numeric
operands. -/
theorem applyBop_numeric (b : BOP) (x y v : ℚ) (h : evalBop b x y = some v) :
    applyBop b (VALUE.ofDouble x) (VALUE.ofDouble y) = .ok (VALUE.ofDouble v) := by
  cases b
  case DIV => by_cases hy : y = 0 <;> simp_all [evalBop, applyBop, VALUE.ofDouble]
  all_goals
    simp_all [evalBop, applyBop, applyOrder, VALUE.ofDouble, boolVal,
      VALUE.beq, asBool]

/-- Compiler correctness, strengthened for induction: a numeric expression
with value `v` compiles successfully, and executing its code pushes exactly
`Numeric v` onto any starting stack before any continuation code runs. -/
theorem codegen_exec (e : Expr) (v : ℚ) (h : evalE e = some v) :
    ∃ p, codegen resolveDefault e = .ok p ∧
      ∀ rest st, execOps (p ++ rest) st =
        execOps rest (VALUE.ofDouble v :: st) := by
  induction e generalizing v with
  | num q =>
    have hq : q = v := by simpa [evalE] using h
    subst hq
    exact ⟨_, rfl, fun rest st => rfl⟩
  | strLit s => simp [evalE] at h
  | varRef n f => simp [evalE] at h
  | unNot a ih =>
    rw [evalE] at h
    cases ha : evalE a with
    | none => rw [ha] at h; exact absurd h (by simp)
    | some x =>
      rw [ha] at h
      have hv : (if x = 0 then (1 : ℚ) else 0) = v := by simpa using h
      obtain ⟨pa, hpa, hea⟩ := ih x ha
      refine ⟨pa ++ [.unopNot], by unfold codegen; rw [hpa]; rfl,
        fun rest st => ?_⟩
      rw [List.append_assoc, hea]
      show execOps rest (boolVal (!asBool (VALUE.ofDouble x)) :: st) = _
      have : boolVal (!asBool (VALUE.ofDouble x)) = VALUE.ofDouble v := by
        by_cases hx : x = 0 <;>
          simp_all [boolVal, asBool, VALUE.ofDouble]
      rw [this]
  | bin b a c iha ihc =>
    rw [evalE] at h
    cases ha : evalE a with
    | none => rw [ha] at h; exact absurd h (by simp)
    | some x =>
      cases hc : evalE c with
      | none => rw [ha, hc] at h; exact absurd h (by simp)
      | some y =>
        rw [ha, hc] at h
        obtain ⟨pa, hpa, hea⟩ := iha x ha
        obtain ⟨pc, hpc, hec⟩ := ihc y hc
        refine ⟨pa ++ pc ++ [.binop b], by unfold codegen; rw [hpa, hpc]; rfl,
          fun rest st => ?_⟩
        rw [List.append_assoc, List.append_assoc, hea, hec]
        have hb := applyBop_numeric b x y v h
        exact execOps_binop_ok b _ _ _ rest st hb

/-- C1: for every numeric expression (all literals `Numeric`) with defined
value `v`, code generation succeeds and running the program yields exactly
`Numeric v`; in particular the source strings `"2 + 3 * 4"` and
`"(2 + 3) * 4"` compile and run, through the precedence parser, to `14`
and `20` respectively. -/
theorem C1_compile_run_precedence :
    (∀ e v, evalE e = some v →
      ∃ p, codegen resolveDefault e = .ok p ∧
        Run p = .val (VALUE.ofDouble v)) ∧
    evalString "2 + 3 * 4" = .val (VALUE.ofDouble 14) ∧
    evalString "(2 + 3) * 4" = .val (VALUE.ofDouble 20) := by
  refine ⟨?_, by with_unfolding_all decide, by with_unfolding_all decide⟩
  intro e v h
  obtain ⟨p, hp, hexec⟩ := codegen_exec e v h
  refine ⟨p, hp, ?_⟩
  have h2 := hexec [] []
  rw [List.append_nil] at h2
  unfold Run RunWith
  rw [h2]
  rfl

/-- C1 witness: the AST of `2 + 3 * 4` evaluates to 14 and the general
statement applies to it. -/
theorem C1_compile_run_precedence_witness :
    evalE (.bin .ADD (.num 2) (.bin .MUL (.num 3) (.num 4))) = some 14 ∧
    ∃ p, codegen resolveDefault
        (.bin .ADD (.num 2) (.bin .MUL (.num 3) (.num 4))) = .ok p ∧
      Run p = .val (VALUE.ofDouble 14) :=
  ⟨by with_unfolding_all decide,
    C1_compile_run_precedence.1 (.bin .ADD (.num 2) (.bin .MUL (.num 3) (.num 4)))
      14 (by with_unfolding_all decide)⟩

/-- C3: dividing by a numeric zero is reported as a Runtime error through
the normal error channel (`RUN_RES.rerr` carrying an `ERROR_STATUS` with
stage `CST_RUNTIME` and the pending flag set), not a trap or a fatal
fault; `"1 / 0"` end-to-end is such a case. -/
theorem C3_division_by_zero :
    (∀ e1 e2 x, evalE e1 = some x → evalE e2 = some 0 →
      ∃ p, codegen resolveDefault (.bin .DIV e1 e2) = .ok p ∧
        Run p = .rerr (runtimeStatus "division by zero")) ∧
    evalString "1 / 0" = .rerr (runtimeStatus "division by zero") ∧
    (runtimeStatus "division by zero").stage = .CST_RUNTIME ∧
    (runtimeStatus "division by zero").pendingError = true := by
  refine ⟨?_, by with_unfolding_all decide, rfl, rfl⟩
  intro e1 e2 x h1 h2
  obtain ⟨pa, hpa, hea⟩ := codegen_exec e1 x h1
  obtain ⟨pc, hpc, hec⟩ := codegen_exec e2 0 h2
  refine ⟨pa ++ pc ++ [.binop .DIV],
    by unfold codegen; rw [hpa, hpc]; rfl, ?_⟩
  unfold Run RunWith
  rw [List.append_assoc, hea, hec]
  have hdiv : applyBop .DIV (VALUE.ofDouble x) (VALUE.ofDouble 0) =
      .error (.rtError "division by zero") := by
    simp [applyBop, VALUE.ofDouble]
  rw [execOps_binop_error .DIV _ _ _ [] [] hdiv]

/-- C3 witness: instantiated at the literal operands 1 and 0. -/
theorem C3_division_by_zero_witness :
    evalE (.num 1) = some 1 ∧ evalE (.num 0) = some 0 ∧
    ∃ p, codegen resolveDefault (.bin .DIV (.num 1) (.num 0)) = .ok p ∧
      Run p = .rerr (runtimeStatus "division by zero") :=
  ⟨rfl, rfl, C3_division_by_zero.1 (.num 1) (.num 0) 1 rfl rfl⟩

/-- C4: the logical operators are compiled with both operand programs
emitted unconditionally ahead of the operator opcode; execution of a
concatenation runs the first part in full before the rest (no instruction
is skipped, so both operands execute on every run); operands are coerced
to boolean as nonzero-numeric-or-nonempty-string; and concretely a false
(`0`) left operand of `&&` — or a true (`1`) left operand of `||` — does
not prevent a division by zero in the right operand from being executed
and reported. -/
theorem C4_no_short_circuit :
    (∀ a b pa pb, codegen resolveDefault a = .ok pa →
      codegen resolveDefault b = .ok pb →
      codegen resolveDefault (.bin .BOOL_AND a b) =
          .ok (pa ++ pb ++ [.binop .BOOL_AND]) ∧
      codegen resolveDefault (.bin .BOOL_OR a b) =
          .ok (pa ++ pb ++ [.binop .BOOL_OR])) ∧
    (∀ p q st, execOps (p ++ q) st = (execOps p st).bind (execOps q)) ∧
    (∀ v : VALUE, asBool v = true ↔
      (v.m_type = .VT_NUMERIC ∧ v.m_valueDbl ≠ 0) ∨
      (v.m_type = .VT_STRING ∧ v.m_valueStr ≠ "")) ∧
    evalString "0 && 1 / 0" = .rerr (runtimeStatus "division by zero") ∧
    evalString "1 || 1 / 0" = .rerr (runtimeStatus "division by zero") := by
  refine ⟨?_, execOps_append, ?_, by with_unfolding_all decide,
    by with_unfolding_all decide⟩
  · intro a b pa pb hpa hpb
    exact ⟨by unfold codegen; rw [hpa, hpb]; rfl,
      by unfold codegen; rw [hpa, hpb]; rfl⟩
  · intro v
    obtain ⟨t, d, s⟩ := v
    cases t <;> simp [asBool]

/-- C4 witness: both logical operators applied to the literals 0 and 1. -/
theorem C4_no_short_circuit_witness :
    codegen resolveDefault (.num 0) = .ok [.pushValue (VALUE.ofDouble 0)] ∧
    codegen resolveDefault (.num 1) = .ok [.pushValue (VALUE.ofDouble 1)] ∧
    codegen resolveDefault (.bin .BOOL_AND (.num 0) (.num 1)) =
      .ok ([.pushValue (VALUE.ofDouble 0)] ++ [.pushValue (VALUE.ofDouble 1)] ++
        [.binop .BOOL_AND]) :=
  ⟨rfl, rfl, (C4_no_short_circuit.1 (.num 0) (.num 1) _ _ rfl rfl).1⟩

/-- C8: running one compiled program against two fresh execution contexts
yields identical results — in this model `RunWith` is a pure function of
the program and the starting context, the program itself is never
modified, and a fresh context is the empty operand stack, so the two runs
coincide definitionally. -/
theorem C8_fresh_runs_identical (p : List UOPM) (c1 c2 : List VALUE)
    (h1 : c1 = []) (h2 : c2 = []) :
    RunWith p c1 = RunWith p c2 ∧ RunWith p c1 = Run p := by
  subst h1
  subst h2
  exact ⟨rfl, rfl⟩

/-- C8 witness: a one-instruction program run twice from fresh contexts. -/
theorem C8_fresh_runs_identical_witness :
    RunWith [UOPM.pushValue (VALUE.ofDouble 2)] [] =
      RunWith [UOPM.pushValue (VALUE.ofDouble 2)] [] ∧
    RunWith [UOPM.pushValue (VALUE.ofDouble 2)] [] =
      Run [UOPM.pushValue (VALUE.ofDouble 2)] :=
  C8_fresh_runs_identical [UOPM.pushValue (VALUE.ofDouble 2)] [] [] rfl rfl

/-- C9: `Compile` clears the target program first, so its outcome — and in
particular the program it leaves behind — is independent of the target's
prior content; it returns true exactly when no error is pending, and a
failed compile records stage `CST_PARSE` or `CST_CODEGEN`. -/
theorem C9_compile_clears_target (s : String) (prior1 prior2 : List UOPM) :
    Compile s prior1 = Compile s prior2 ∧
    (Compile s prior1).code = (Compile s []).code ∧
    ((Compile s prior1).success = false →
      (Compile s prior1).err.stage = .CST_PARSE ∨
      (Compile s prior1).err.stage = .CST_CODEGEN) ∧
    ((Compile s prior1).success = true ↔
      (Compile s prior1).err.pendingError = false) := by
  refine ⟨rfl, rfl, ?_, ?_⟩ <;>
    · unfold Compile
      split
      · simp [ERROR_STATUS.report]
      · split
        · simp [ERROR_STATUS.report]
        · simp

/-- C9 witness: the malformed source `"2 +"` fails with stage Parse,
independently of a nonempty prior program. -/
theorem C9_compile_clears_target_witness :
    (Compile "2 +" [UOPM.unopNot]).success = false ∧
    ((Compile "2 +" [UOPM.unopNot]).err.stage = .CST_PARSE ∨
      (Compile "2 +" [UOPM.unopNot]).err.stage = .CST_CODEGEN) ∧
    Compile "2 +" [UOPM.unopNot] = Compile "2 +" [] :=
  ⟨by with_unfolding_all decide,
    (C9_compile_clears_target "2 +" [UOPM.unopNot] []).2.2.1
      (by with_unfolding_all decide),
    (C9_compile_clears_target "2 +" [UOPM.unopNot] []).1⟩

end LIBEVAL
